import Mathlib

/-!
Verification development for the TwitCanva node-graph canvas core.

The definitions below are a shallow embedding of the hooks
`src/hooks/useImageNodeHandlers.ts` and `src/hooks/useContextMenu.ts`:

* React state updates (`setNodes`, `setSelectedNodeIds`, `setContextMenu`)
  become explicit state passing on a `Store` / `ContextMenuState` value.
* JavaScript numbers appearing in the handlers (canvas coordinates, angle
  settings, screen coordinates) are embedded as `Int`; only additions,
  sign tests and threshold comparisons occur, so no floating-point
  behaviour is relevant to the claims.
* `crypto.randomUUID()` is embedded as an explicitly supplied identifier
  `newNodeId`; freshness (the UUID differs from every existing node id)
  becomes a hypothesis of the theorems.
* Optional TypeScript fields become `Option` fields; the JavaScript
  `a || b` fallback on strings (undefined and the empty string are both
  falsy) is embedded as `jsOrString`.
* The nested `requestAnimationFrame` deferral is embedded as a
  deterministic frame scheduler: a queue of thunks where a callback
  registered while a frame is being processed runs in the next frame.
-/

namespace TwitCanva

/-- Node kind, from `NodeType` as used by the handlers. -/
inductive NodeType where
  | IMAGE
  | VIDEO
  deriving DecidableEq

/-- Node generation status, from `NodeStatus` as used by the handlers. -/
inductive NodeStatus where
  | IDLE
  | LOADING
  deriving DecidableEq

/-- Camera-angle settings attached to an image node in angle mode. -/
structure AngleSettings where
  rotation : Int
  tilt : Int
  scale : Int
  wideAngle : Bool
  deriving DecidableEq

/-- A canvas node, with exactly the fields the shown handlers read or write. -/
structure NodeData where
  id : String
  type : NodeType
  x : Int
  y : Int
  prompt : String
  status : NodeStatus
  model : String
  imageModel : Option String
  aspectRatio : Option String
  resolution : Option String
  parentIds : List String
  angleSettings : Option AngleSettings
  angleMode : Option Bool
  deriving DecidableEq

/-- The node store together with the selection state, the two pieces of React
state the handlers mutate (`nodes`/`setNodes`, `setSelectedNodeIds`). -/
structure Store where
  nodes : List NodeData
  selectedNodeIds : List String
  deriving DecidableEq

/-- JavaScript string fallback `a || b`: an absent value and the empty string
are both falsy, so both fall through to the default. -/
def jsOrString : Option String → String → String
  | none, d => d
  | some s, d => if s = "" then d else s

/-- From `useImageNodeHandlers.ts`, `buildAnglePrompt`: synthesizes a camera
movement prompt from angle settings by pushing directive sentences onto a
list and joining them with single spaces. -/
def buildAnglePrompt (settings : AngleSettings) : String :=
  let parts : List String :=
    ["Create a new photograph of this exact same person/subject from a different camera viewing angle. Keep the same scene, lighting, clothing, and background. Only change the camera position."]
  let parts :=
    if settings.rotation ≠ 0 then
      if settings.rotation > 0 then
        parts ++ ["Move the camera " ++ toString settings.rotation.natAbs ++ "° to the right side of the subject, as if walking around them clockwise."]
      else
        parts ++ ["Move the camera " ++ toString settings.rotation.natAbs ++ "° to the left side of the subject, as if walking around them counter-clockwise."]
    else parts
  let parts :=
    if settings.tilt ≠ 0 then
      if settings.tilt > 0 then
        parts ++ ["Raise the camera viewpoint " ++ toString settings.tilt.natAbs ++ "° higher, looking slightly down at the subject."]
      else
        parts ++ ["Lower the camera viewpoint " ++ toString settings.tilt.natAbs ++ "° lower, looking slightly up at the subject."]
    else parts
  let parts :=
    if settings.scale > 50 then
      parts ++ ["Position the camera closer to the subject for a tighter frame."]
    else if settings.scale > 0 then
      parts ++ ["Move the camera slightly closer to the subject."]
    else parts
  let parts :=
    if settings.wideAngle then
      parts ++ ["Use wide-angle lens perspective with slight barrel distortion at edges."]
    else parts
  let parts := parts ++ ["IMPORTANT: Do NOT rotate or flip the final image. The subject should remain upright and properly oriented."]
  String.intercalate (" ") parts

/-- The fixed preamble directive (spec step 1). -/
def anglePreamble : String :=
  "Create a new photograph of this exact same person/subject from a different camera viewing angle. Keep the same scene, lighting, clothing, and background. Only change the camera position."

/-- The rotation directive (spec step 2): right/clockwise for positive
rotation, left/counter-clockwise for negative, using the absolute value. -/
def rotationDirective (rotation : Int) : String :=
  if rotation > 0 then
    "Move the camera " ++ toString rotation.natAbs ++ "° to the right side of the subject, as if walking around them clockwise."
  else
    "Move the camera " ++ toString rotation.natAbs ++ "° to the left side of the subject, as if walking around them counter-clockwise."

/-- The tilt directive (spec step 3): raise/look-down for positive tilt,
lower/look-up for negative, using the absolute value. -/
def tiltDirective (tilt : Int) : String :=
  if tilt > 0 then
    "Raise the camera viewpoint " ++ toString tilt.natAbs ++ "° higher, looking slightly down at the subject."
  else
    "Lower the camera viewpoint " ++ toString tilt.natAbs ++ "° lower, looking slightly up at the subject."

/-- The closer, tighter-frame directive (spec step 4, `scale > 50` branch). -/
def tighterFrameDirective : String :=
  "Position the camera closer to the subject for a tighter frame."

/-- The slightly-closer directive (spec step 4, `0 < scale ≤ 50` branch). -/
def slightlyCloserDirective : String :=
  "Move the camera slightly closer to the subject."

/-- The wide-angle directive (spec step 5). -/
def wideAngleDirective : String :=
  "Use wide-angle lens perspective with slight barrel distortion at edges."

/-- The closing orientation-preservation directive (spec step 6). -/
def orientationDirective : String :=
  "IMPORTANT: Do NOT rotate or flip the final image. The subject should remain upright and properly oriented."

/-- The directive list exactly as the specification enumerates it (steps 1-7
of the prompt-synthesis algorithm): always the preamble; a rotation directive
iff `rotation ≠ 0`; a tilt directive iff `tilt ≠ 0`; the tighter-frame
directive iff `scale > 50`, else the slightly-closer directive iff
`scale > 0`; the wide-angle directive iff `wideAngle`; always the closing
orientation directive — in exactly this order. -/
def anglePromptDirectivesSpec (s : AngleSettings) : List String :=
  [anglePreamble]
    ++ (if s.rotation ≠ 0 then [rotationDirective s.rotation] else [])
    ++ (if s.tilt ≠ 0 then [tiltDirective s.tilt] else [])
    ++ (if s.scale > 50 then [tighterFrameDirective]
        else if s.scale > 0 then [slightlyCloserDirective] else [])
    ++ (if s.wideAngle then [wideAngleDirective] else [])
    ++ [orientationDirective]

/-- Node card width constant from the handlers. -/
def NODE_WIDTH : Int := 340

/-- Horizontal gap constant from the handlers. -/
def GAP : Int := 100

/-- From `useImageNodeHandlers.ts`, `handleImageToImage`: look up the source
node; if absent return unchanged; otherwise append a fresh IMAGE node placed
to the right of the source, linked by `parentIds`, and select it exclusively.
`newNodeId` stands for the freshly generated `crypto.randomUUID()`. -/
def handleImageToImage (newNodeId : String) (nodeId : String) (st : Store) : Store :=
  match st.nodes.find? (fun n => n.id == nodeId) with
  | none => st
  | some imageNode =>
    let newImageNode : NodeData :=
      { id := newNodeId
        type := NodeType.IMAGE
        x := imageNode.x + NODE_WIDTH + GAP
        y := imageNode.y
        prompt := ""
        status := NodeStatus.IDLE
        model := "Banana Pro"
        imageModel := none
        aspectRatio := some ("Auto")
        resolution := some ("Auto")
        parentIds := [nodeId]
        angleSettings := none
        angleMode := none }
    { nodes := st.nodes ++ [newImageNode]
      selectedNodeIds := [newNodeId] }

/-- From `useImageNodeHandlers.ts`, `handleImageToVideo`: identical to
`handleImageToImage` except the created node is a VIDEO node. -/
def handleImageToVideo (newNodeId : String) (nodeId : String) (st : Store) : Store :=
  match st.nodes.find? (fun n => n.id == nodeId) with
  | none => st
  | some imageNode =>
    let newVideoNode : NodeData :=
      { id := newNodeId
        type := NodeType.VIDEO
        x := imageNode.x + NODE_WIDTH + GAP
        y := imageNode.y
        prompt := ""
        status := NodeStatus.IDLE
        model := "Banana Pro"
        imageModel := none
        aspectRatio := some ("Auto")
        resolution := some ("Auto")
        parentIds := [nodeId]
        angleSettings := none
        angleMode := none }
    { nodes := st.nodes ++ [newVideoNode]
      selectedNodeIds := [newNodeId] }

/-- From `useImageNodeHandlers.ts`, `handleChangeAngleGenerate` (the store
part, lines 144-175): look up the source node; if absent or without angle
settings return unchanged; otherwise, in a single store update, flip the
angle-mode flag of the node(s) with the source id off and append a fresh
IMAGE node whose prompt is synthesized from the angle settings, whose
aspect ratio and resolution are inherited with an Auto fallback, and whose
image model is forced to the fixed gemini-pro variant; select it
exclusively. -/
def handleChangeAngleGenerate (newNodeId : String) (nodeId : String) (st : Store) : Store :=
  match st.nodes.find? (fun n => n.id == nodeId) with
  | none => st
  | some imageNode =>
    match imageNode.angleSettings with
    | none => st
    | some settings =>
      let anglePrompt := buildAnglePrompt settings
      let newImageNode : NodeData :=
        { id := newNodeId
          type := NodeType.IMAGE
          x := imageNode.x + NODE_WIDTH + GAP
          y := imageNode.y
          prompt := anglePrompt
          status := NodeStatus.IDLE
          model := "Banana Pro"
          imageModel := some ("gemini-pro")
          aspectRatio := some (jsOrString imageNode.aspectRatio ("Auto"))
          resolution := some (jsOrString imageNode.resolution ("Auto"))
          parentIds := [nodeId]
          angleSettings := none
          angleMode := none }
      { nodes :=
          (st.nodes.map fun n =>
            if n.id == nodeId then { n with angleMode := some false } else n)
          ++ [newImageNode]
        selectedNodeIds := [newNodeId] }

/-- A callback sitting in the `requestAnimationFrame` queue. The outer thunk
is the first-level callback (which only registers the inner one); the inner
thunk is the second-level callback that invokes the generation trigger. -/
inductive RafThunk where
  | outer (nodeId : String)
  | inner (nodeId : String)
  deriving DecidableEq

/-- Deterministic frame-scheduler state: the pending callback queue and the
list of node ids the generation trigger has been invoked on, in order. -/
structure RafState where
  queue : List RafThunk
  triggered : List String
  deriving DecidableEq

/-- Run one queued callback: the outer callback registers the inner one
(for the NEXT frame); the inner callback invokes the trigger. -/
def runThunk (st : RafState) : RafThunk → RafState
  | RafThunk.outer nid => { st with queue := st.queue ++ [RafThunk.inner nid] }
  | RafThunk.inner nid => { st with triggered := st.triggered ++ [nid] }

/-- Advance the scheduler by one full frame: every callback pending at the
start of the frame runs; callbacks registered during the frame run in a
later frame. -/
def runFrame (st : RafState) : RafState :=
  st.queue.foldl runThunk { st with queue := [] }

/-- From `useImageNodeHandlers.ts`, lines 180-187: the callbacks
`handleChangeAngleGenerate` registers with `requestAnimationFrame`. If the
handler returned early (missing source or missing angle settings) nothing is
registered; otherwise, when a generation trigger callback was supplied
(`hasTrigger`), a single two-level deferred callback on the new node id is
registered; with no trigger callback, nothing is registered. -/
def changeAngleScheduledThunks (newNodeId : String) (nodeId : String)
    (hasTrigger : Bool) (st : Store) : List RafThunk :=
  match st.nodes.find? (fun n => n.id == nodeId) with
  | none => []
  | some imageNode =>
    match imageNode.angleSettings with
    | none => []
    | some _ => if hasTrigger then [RafThunk.outer newNodeId] else []

/-- Context menu kind, from `ContextMenuState.type`. -/
inductive MenuType where
  | global
  | nodeConnector
  | nodeOptions
  deriving DecidableEq

/-- Which side of a node a connector menu was opened from. -/
inductive ConnectorSide where
  | left
  | right
  deriving DecidableEq

/-- From `useContextMenu.ts`: the single shared context-menu state slot. -/
structure ContextMenuState where
  isOpen : Bool
  x : Int
  y : Int
  type : MenuType
  sourceNodeId : Option String
  connectorSide : Option ConnectorSide
  deriving DecidableEq

/-- The initial `useState` value of the context-menu slot
(`useContextMenu.ts` lines 21-26): closed, at the origin, global kind, no
source node, no connector side. -/
def initialContextMenu : ContextMenuState :=
  { isOpen := false
    x := 0
    y := 0
    type := MenuType.global
    sourceNodeId := none
    connectorSide := none }

/-- `closeContextMenu`: keep every field of the previous state and set
`isOpen` to false. -/
def closeContextMenu (prev : ContextMenuState) : ContextMenuState :=
  { prev with isOpen := false }

/-- `handleDoubleClick`: when the double-click target is the canvas
background, replace the whole state with a fresh open global menu at the
cursor; otherwise leave the state alone. -/
def handleDoubleClick (onBackground : Bool) (clientX clientY : Int)
    (prev : ContextMenuState) : ContextMenuState :=
  if onBackground then
    { isOpen := true
      x := clientX
      y := clientY
      type := MenuType.global
      sourceNodeId := none
      connectorSide := none }
  else prev

/-- `handleGlobalContextMenu`: same replacement as `handleDoubleClick`,
triggered by right-click on the canvas background. -/
def handleGlobalContextMenu (onBackground : Bool) (clientX clientY : Int)
    (prev : ContextMenuState) : ContextMenuState :=
  if onBackground then
    { isOpen := true
      x := clientX
      y := clientY
      type := MenuType.global
      sourceNodeId := none
      connectorSide := none }
  else prev

/-- `handleToolbarAdd`: unconditionally replace the whole state with a fresh
open global menu positioned relative to the toolbar button bounding box. -/
def handleToolbarAdd (rectRight rectTop : Int)
    (_prev : ContextMenuState) : ContextMenuState :=
  { isOpen := true
    x := rectRight + 10
    y := rectTop
    type := MenuType.global
    sourceNodeId := none
    connectorSide := none }

/-- `openConnectorMenu`: unconditionally replace the whole state with a fresh
open node-connector menu centered in the viewport. -/
def openConnectorMenu (innerWidth innerHeight : Int) (nodeId : String)
    (direction : ConnectorSide) (_prev : ContextMenuState) : ContextMenuState :=
  { isOpen := true
    x := innerWidth / 2
    y := innerHeight / 2
    type := MenuType.nodeConnector
    sourceNodeId := some nodeId
    connectorSide := some direction }

/-- `openNodeOptionsMenu`: unconditionally replace the whole state with a
fresh open node-options menu at the cursor. -/
def openNodeOptionsMenu (clientX clientY : Int) (nodeId : String)
    (_prev : ContextMenuState) : ContextMenuState :=
  { isOpen := true
    x := clientX
    y := clientY
    type := MenuType.nodeOptions
    sourceNodeId := some nodeId
    connectorSide := none }

/-- A user gesture dispatched to the context-menu controller, with the data
each handler reads from the DOM event. -/
inductive MenuAction where
  | doubleClick (onBackground : Bool) (clientX clientY : Int)
  | globalContextMenu (onBackground : Bool) (clientX clientY : Int)
  | toolbarAdd (rectRight rectTop : Int)
  | connector (innerWidth innerHeight : Int) (nodeId : String) (side : ConnectorSide)
  | nodeOptions (clientX clientY : Int) (nodeId : String)
  | close
  deriving DecidableEq

/-- Dispatch one gesture to the corresponding handler. -/
def menuStep (s : ContextMenuState) : MenuAction → ContextMenuState
  | MenuAction.doubleClick bg cx cy => handleDoubleClick bg cx cy s
  | MenuAction.globalContextMenu bg cx cy => handleGlobalContextMenu bg cx cy s
  | MenuAction.toolbarAdd r t => handleToolbarAdd r t s
  | MenuAction.connector w h nid side => openConnectorMenu w h nid side s
  | MenuAction.nodeOptions cx cy nid => openNodeOptionsMenu cx cy nid s
  | MenuAction.close => closeContextMenu s

/-- Whether an action is an open call that fires (its background guard, when
it has one, is satisfied). -/
def opensMenu : MenuAction → Bool
  | MenuAction.doubleClick bg _ _ => bg
  | MenuAction.globalContextMenu bg _ _ => bg
  | MenuAction.toolbarAdd _ _ => true
  | MenuAction.connector _ _ _ _ => true
  | MenuAction.nodeOptions _ _ _ => true
  | MenuAction.close => false

/-- Number of open context menus a state exposes: the state is a single
shared slot, so this is 1 when it is open and 0 otherwise. -/
def openMenuCount (s : ContextMenuState) : Nat :=
  if s.isOpen then 1 else 0

/-- Claim C2: the prompt synthesis function `buildAnglePrompt` is a
deterministic total function of the angle settings equal to the
specification directive list joined with single spaces: always the fixed
preamble; a rotation directive iff rotation is nonzero (right/clockwise for
positive, left/counter-clockwise for negative, using the absolute value);
a tilt directive iff tilt is nonzero (raise/look-down for positive,
lower/look-up for negative, using the absolute value); the tighter-frame
directive iff scale is above 50, the slightly-closer directive iff scale is
strictly between 0 and 51, nothing otherwise; the wide-angle directive iff
wideAngle; always the closing orientation directive — in exactly this
order. -/
theorem buildAnglePrompt_matches_spec_directives (s : AngleSettings) :
    buildAnglePrompt s = String.intercalate (" ") (anglePromptDirectivesSpec s) := by
  simp only [buildAnglePrompt, anglePromptDirectivesSpec, rotationDirective, tiltDirective,
    tighterFrameDirective, slightlyCloserDirective, wideAngleDirective, anglePreamble,
    orientationDirective]
  split_ifs <;> rfl

/-- Claim C5: for rotation 45 with no tilt, no scale, no wide-angle, the
synthesized prompt is exactly the preamble, the right/clockwise rotation
directive, and the closing orientation sentence; for rotation -30, tilt 20,
scale 60, wideAngle true, it is exactly the preamble, the
left/counter-clockwise directive, the raise/look-down directive, the
tighter-frame directive, the wide-angle directive, and the orientation
sentence, in this order. -/
theorem buildAnglePrompt_concrete_examples :
    buildAnglePrompt { rotation := 45, tilt := 0, scale := 0, wideAngle := false }
      = String.intercalate (" ")
          [anglePreamble, rotationDirective 45, orientationDirective] ∧
    rotationDirective 45
      = "Move the camera 45° to the right side of the subject, as if walking around them clockwise." ∧
    buildAnglePrompt { rotation := -30, tilt := 20, scale := 60, wideAngle := true }
      = String.intercalate (" ")
          [anglePreamble, rotationDirective (-30), tiltDirective 20,
            tighterFrameDirective, wideAngleDirective, orientationDirective] ∧
    rotationDirective (-30)
      = "Move the camera 30° to the left side of the subject, as if walking around them counter-clockwise." ∧
    tiltDirective 20
      = "Raise the camera viewpoint 20° higher, looking slightly down at the subject." := by
  refine ⟨?_, ?_, ?_, ?_, ?_⟩ <;> rfl

/-- A sample root image node used to instantiate the theorems. -/
def sampleNode : NodeData :=
  { id := "src-node"
    type := NodeType.IMAGE
    x := 10
    y := 20
    prompt := ""
    status := NodeStatus.IDLE
    model := "Banana Pro"
    imageModel := none
    aspectRatio := none
    resolution := none
    parentIds := []
    angleSettings := none
    angleMode := none }

/-- Sample angle settings used to instantiate the theorems. -/
def sampleAngleSettings : AngleSettings :=
  { rotation := 45, tilt := 0, scale := 0, wideAngle := false }

/-- A sample image node currently in angle mode. -/
def sampleAngleNode : NodeData :=
  { sampleNode with
      id := "angle-node"
      x := 50
      angleSettings := some sampleAngleSettings
      angleMode := some true }

/-- A sample store holding the two sample nodes and an empty selection. -/
def sampleStore : Store :=
  { nodes := [sampleNode, sampleAngleNode], selectedNodeIds := [] }

/-- Claim C1: for every node store and every source id naming a node S,
`handleImageToImage` with a fresh generated id appends exactly one new node
N with IMAGE type, parent link to S, position shifted right by 440 and the
same y, empty prompt, IDLE status, default generation configuration
(model Banana Pro, aspect ratio and resolution Auto, no image model)
regardless of the configuration of S, an id distinct from every existing
node id, and makes the selection exactly the new node id. -/
theorem handleImageToImage_creates_linked_image_node (st : Store) (newId srcId : String)
    (S : NodeData)
    (hfind : st.nodes.find? (fun n => n.id == srcId) = some S)
    (hfresh : ∀ n ∈ st.nodes, n.id ≠ newId) :
    ∃ N : NodeData,
      (handleImageToImage newId srcId st).nodes = st.nodes ++ [N] ∧
      (handleImageToImage newId srcId st).selectedNodeIds = [N.id] ∧
      N.id = newId ∧
      N.type = NodeType.IMAGE ∧
      N.parentIds = [S.id] ∧
      N.x = S.x + 440 ∧
      N.y = S.y ∧
      N.prompt = "" ∧
      N.status = NodeStatus.IDLE ∧
      N.model = "Banana Pro" ∧
      N.imageModel = none ∧
      N.aspectRatio = some ("Auto") ∧
      N.resolution = some ("Auto") ∧
      (∀ n ∈ st.nodes, n.id ≠ N.id) := by
  have hid : S.id = srcId := by
    have h := List.find?_some hfind
    exact eq_of_beq h
  refine ⟨{ id := newId
            type := NodeType.IMAGE
            x := S.x + NODE_WIDTH + GAP
            y := S.y
            prompt := ""
            status := NodeStatus.IDLE
            model := "Banana Pro"
            imageModel := none
            aspectRatio := some ("Auto")
            resolution := some ("Auto")
            parentIds := [srcId]
            angleSettings := none
            angleMode := none },
    ?_, ?_, rfl, rfl, ?_, ?_, rfl, rfl, rfl, rfl, rfl, rfl, rfl, ?_⟩
  · simp [handleImageToImage, hfind]
  · simp [handleImageToImage, hfind]
  · rw [hid]
  · show S.x + NODE_WIDTH + GAP = S.x + 440
    unfold NODE_WIDTH GAP
    omega
  · intro n hn
    exact hfresh n hn

/-- Claim C1 witness at a concrete store. -/
theorem handleImageToImage_creates_linked_image_node_witness :
    ∃ N : NodeData,
      (handleImageToImage ("new-node") ("src-node") sampleStore).nodes
        = sampleStore.nodes ++ [N] ∧
      (handleImageToImage ("new-node") ("src-node") sampleStore).selectedNodeIds = [N.id] ∧
      N.id = "new-node" ∧
      N.type = NodeType.IMAGE ∧
      N.parentIds = [sampleNode.id] ∧
      N.x = sampleNode.x + 440 ∧
      N.y = sampleNode.y ∧
      N.prompt = "" ∧
      N.status = NodeStatus.IDLE ∧
      N.model = "Banana Pro" ∧
      N.imageModel = none ∧
      N.aspectRatio = some ("Auto") ∧
      N.resolution = some ("Auto") ∧
      (∀ n ∈ sampleStore.nodes, n.id ≠ N.id) :=
  handleImageToImage_creates_linked_image_node sampleStore ("new-node") ("src-node")
    sampleNode (by rfl) (by decide)

/-- Claim C4: `handleImageToVideo` has the same postconditions as
`handleImageToImage` except the created node has VIDEO type: exactly one new
node appended, parent link to S, position shifted right by 440 at the same
y, empty prompt, IDLE status, default configuration, fresh id, and the
selection set exactly to the new node id. -/
theorem handleImageToVideo_creates_linked_video_node (st : Store) (newId srcId : String)
    (S : NodeData)
    (hfind : st.nodes.find? (fun n => n.id == srcId) = some S)
    (hfresh : ∀ n ∈ st.nodes, n.id ≠ newId) :
    ∃ N : NodeData,
      (handleImageToVideo newId srcId st).nodes = st.nodes ++ [N] ∧
      (handleImageToVideo newId srcId st).selectedNodeIds = [N.id] ∧
      N.id = newId ∧
      N.type = NodeType.VIDEO ∧
      N.parentIds = [S.id] ∧
      N.x = S.x + 440 ∧
      N.y = S.y ∧
      N.prompt = "" ∧
      N.status = NodeStatus.IDLE ∧
      N.model = "Banana Pro" ∧
      N.imageModel = none ∧
      N.aspectRatio = some ("Auto") ∧
      N.resolution = some ("Auto") ∧
      (∀ n ∈ st.nodes, n.id ≠ N.id) := by
  have hid : S.id = srcId := by
    have h := List.find?_some hfind
    exact eq_of_beq h
  refine ⟨{ id := newId
            type := NodeType.VIDEO
            x := S.x + NODE_WIDTH + GAP
            y := S.y
            prompt := ""
            status := NodeStatus.IDLE
            model := "Banana Pro"
            imageModel := none
            aspectRatio := some ("Auto")
            resolution := some ("Auto")
            parentIds := [srcId]
            angleSettings := none
            angleMode := none },
    ?_, ?_, rfl, rfl, ?_, ?_, rfl, rfl, rfl, rfl, rfl, rfl, rfl, ?_⟩
  · simp [handleImageToVideo, hfind]
  · simp [handleImageToVideo, hfind]
  · rw [hid]
  · show S.x + NODE_WIDTH + GAP = S.x + 440
    unfold NODE_WIDTH GAP
    omega
  · intro n hn
    exact hfresh n hn

/-- Claim C4 witness at a concrete store. -/
theorem handleImageToVideo_creates_linked_video_node_witness :
    ∃ N : NodeData,
      (handleImageToVideo ("new-node") ("src-node") sampleStore).nodes
        = sampleStore.nodes ++ [N] ∧
      (handleImageToVideo ("new-node") ("src-node") sampleStore).selectedNodeIds = [N.id] ∧
      N.id = "new-node" ∧
      N.type = NodeType.VIDEO ∧
      N.parentIds = [sampleNode.id] ∧
      N.x = sampleNode.x + 440 ∧
      N.y = sampleNode.y ∧
      N.prompt = "" ∧
      N.status = NodeStatus.IDLE ∧
      N.model = "Banana Pro" ∧
      N.imageModel = none ∧
      N.aspectRatio = some ("Auto") ∧
      N.resolution = some ("Auto") ∧
      (∀ n ∈ sampleStore.nodes, n.id ≠ N.id) :=
  handleImageToVideo_creates_linked_video_node sampleStore ("new-node") ("src-node")
    sampleNode (by rfl) (by decide)

/-- Claim C6: calling any of the three derivation handlers with a source id
that names no node leaves the store (nodes and selection) unchanged, and
calling the angle-regeneration handler on a node without angle settings
likewise leaves the store unchanged. -/
theorem derivation_missing_source_noop (st : Store) (newId srcId : String) :
    (st.nodes.find? (fun n => n.id == srcId) = none →
      handleImageToImage newId srcId st = st ∧
      handleImageToVideo newId srcId st = st ∧
      handleChangeAngleGenerate newId srcId st = st) ∧
    (∀ S : NodeData, st.nodes.find? (fun n => n.id == srcId) = some S →
      S.angleSettings = none →
      handleChangeAngleGenerate newId srcId st = st) := by
  constructor
  · intro h
    refine ⟨?_, ?_, ?_⟩
    · simp [handleImageToImage, h]
    · simp [handleImageToVideo, h]
    · simp [handleChangeAngleGenerate, h]
  · intro S hfind hset
    simp [handleChangeAngleGenerate, hfind, hset]

/-- Claim C6 witness: a ghost id is a no-op for all three handlers, and a
source node without angle settings is a no-op for angle regeneration. -/
theorem derivation_missing_source_noop_witness :
    (handleImageToImage ("new-node") ("ghost") sampleStore = sampleStore ∧
     handleImageToVideo ("new-node") ("ghost") sampleStore = sampleStore ∧
     handleChangeAngleGenerate ("new-node") ("ghost") sampleStore = sampleStore) ∧
    handleChangeAngleGenerate ("new-node") ("src-node") sampleStore = sampleStore :=
  ⟨(derivation_missing_source_noop sampleStore ("new-node") ("ghost")).1 (by rfl),
   (derivation_missing_source_noop sampleStore ("new-node") ("src-node")).2
     sampleNode (by rfl) (by rfl)⟩

/-- Claim C3: for every store and source id naming a node S with angle
settings present, `handleChangeAngleGenerate` performs a single store
update whose result simultaneously appends one new IMAGE node N — with
parent link to S, prompt synthesized from the angle settings, aspect ratio
and resolution inherited from S with an Auto fallback, and the image model
forced to the fixed gemini-pro variant — and turns the angle-mode flag of
the source node off; the conjunction holds of the one resulting store
value, so no intermediate state exposes the child without its parent link
or with the angle mode still on. -/
theorem handleChangeAngleGenerate_atomic (st : Store) (newId srcId : String)
    (S : NodeData) (settings : AngleSettings)
    (hfind : st.nodes.find? (fun n => n.id == srcId) = some S)
    (hset : S.angleSettings = some settings)
    (hfresh : ∀ n ∈ st.nodes, n.id ≠ newId) :
    ∃ N : NodeData,
      (handleChangeAngleGenerate newId srcId st).nodes =
        (st.nodes.map fun n =>
          if n.id == srcId then { n with angleMode := some false } else n) ++ [N] ∧
      (handleChangeAngleGenerate newId srcId st).selectedNodeIds = [N.id] ∧
      N.id = newId ∧
      N.type = NodeType.IMAGE ∧
      N.parentIds = [S.id] ∧
      N.x = S.x + 440 ∧
      N.y = S.y ∧
      N.prompt = buildAnglePrompt settings ∧
      N.status = NodeStatus.IDLE ∧
      N.imageModel = some ("gemini-pro") ∧
      N.aspectRatio = some (jsOrString S.aspectRatio ("Auto")) ∧
      N.resolution = some (jsOrString S.resolution ("Auto")) ∧
      (∀ m ∈ (handleChangeAngleGenerate newId srcId st).nodes,
        m.id = srcId → m.angleMode = some false) := by
  have hid : S.id = srcId := by
    have h := List.find?_some hfind
    exact eq_of_beq h
  have hmem : S ∈ st.nodes := List.mem_of_find?_eq_some hfind
  have hne : srcId ≠ newId := by
    rw [← hid]
    exact hfresh S hmem
  have heq : (handleChangeAngleGenerate newId srcId st).nodes =
      (st.nodes.map fun n =>
        if n.id == srcId then { n with angleMode := some false } else n) ++
      [{ id := newId
         type := NodeType.IMAGE
         x := S.x + NODE_WIDTH + GAP
         y := S.y
         prompt := buildAnglePrompt settings
         status := NodeStatus.IDLE
         model := "Banana Pro"
         imageModel := some ("gemini-pro")
         aspectRatio := some (jsOrString S.aspectRatio ("Auto"))
         resolution := some (jsOrString S.resolution ("Auto"))
         parentIds := [srcId]
         angleSettings := none
         angleMode := none }] := by
    simp [handleChangeAngleGenerate, hfind, hset]
  refine ⟨{ id := newId
            type := NodeType.IMAGE
            x := S.x + NODE_WIDTH + GAP
            y := S.y
            prompt := buildAnglePrompt settings
            status := NodeStatus.IDLE
            model := "Banana Pro"
            imageModel := some ("gemini-pro")
            aspectRatio := some (jsOrString S.aspectRatio ("Auto"))
            resolution := some (jsOrString S.resolution ("Auto"))
            parentIds := [srcId]
            angleSettings := none
            angleMode := none },
    heq, ?_, rfl, rfl, ?_, ?_, rfl, rfl, rfl, rfl, rfl, rfl, ?_⟩
  · simp [handleChangeAngleGenerate, hfind, hset]
  · rw [hid]
  · show S.x + NODE_WIDTH + GAP = S.x + 440
    unfold NODE_WIDTH GAP
    omega
  · intro m hm hmid
    rw [heq] at hm
    rcases List.mem_append.mp hm with hmap | hlast
    · rcases List.mem_map.mp hmap with ⟨n, hn, hfn⟩
      by_cases hb : n.id = srcId
      · rw [← hfn]
        simp [hb]
      · rw [← hfn] at hmid
        simp [hb] at hmid
    · rw [List.mem_singleton.mp hlast] at hmid
      exact absurd hmid.symm hne

/-- Claim C3 witness at a concrete store whose source node is in angle
mode. -/
theorem handleChangeAngleGenerate_atomic_witness :
    ∃ N : NodeData,
      (handleChangeAngleGenerate ("new-node") ("angle-node") sampleStore).nodes =
        (sampleStore.nodes.map fun n =>
          if n.id == "angle-node" then { n with angleMode := some false } else n) ++ [N] ∧
      (handleChangeAngleGenerate ("new-node") ("angle-node") sampleStore).selectedNodeIds
        = [N.id] ∧
      N.id = "new-node" ∧
      N.type = NodeType.IMAGE ∧
      N.parentIds = [sampleAngleNode.id] ∧
      N.x = sampleAngleNode.x + 440 ∧
      N.y = sampleAngleNode.y ∧
      N.prompt = buildAnglePrompt sampleAngleSettings ∧
      N.status = NodeStatus.IDLE ∧
      N.imageModel = some ("gemini-pro") ∧
      N.aspectRatio = some (jsOrString sampleAngleNode.aspectRatio ("Auto")) ∧
      N.resolution = some (jsOrString sampleAngleNode.resolution ("Auto")) ∧
      (∀ m ∈ (handleChangeAngleGenerate ("new-node") ("angle-node") sampleStore).nodes,
        m.id = "angle-node" → m.angleMode = some false) :=
  handleChangeAngleGenerate_atomic sampleStore ("new-node") ("angle-node")
    sampleAngleNode sampleAngleSettings (by rfl) (by rfl) (by decide)

/-- Pointwise agreement of two nodes on every field except the angle-mode
flag. -/
def agreesExceptAngleMode (m n : NodeData) : Prop :=
  m.id = n.id ∧ m.type = n.type ∧ m.x = n.x ∧ m.y = n.y ∧ m.prompt = n.prompt ∧
  m.status = n.status ∧ m.model = n.model ∧ m.imageModel = n.imageModel ∧
  m.aspectRatio = n.aspectRatio ∧ m.resolution = n.resolution ∧
  m.parentIds = n.parentIds ∧ m.angleSettings = n.angleSettings

/-- A mapped list is pointwise related to the original list when the mapping
function satisfies the relation on every element. -/
theorem forall₂_map_self {α : Type} {R : α → α → Prop} (f : α → α) (l : List α)
    (h : ∀ a ∈ l, R (f a) a) : List.Forall₂ R (l.map f) l := by
  induction l with
  | nil => exact List.Forall₂.nil
  | cons a l ih =>
    exact List.Forall₂.cons (h a (by simp)) (ih (fun b hb => h b (by simp [hb])))

/-- Claim C9: `handleImageToImage` and `handleImageToVideo` leave every
pre-existing node exactly unchanged and in its original position, appending
the single new node at the end; `handleChangeAngleGenerate` keeps the
pre-existing nodes in order, agreeing with the originals on every field
except the angle-mode flag, and leaves every node whose id differs from the
source id fully unchanged. -/
theorem handlers_frame_effect (st : Store) (newId srcId : String) (S : NodeData)
    (hfind : st.nodes.find? (fun n => n.id == srcId) = some S) :
    (∃ N : NodeData, (handleImageToImage newId srcId st).nodes = st.nodes ++ [N]) ∧
    (∃ N : NodeData, (handleImageToVideo newId srcId st).nodes = st.nodes ++ [N]) ∧
    (∀ settings : AngleSettings, S.angleSettings = some settings →
      ∃ N : NodeData,
        (handleChangeAngleGenerate newId srcId st).nodes =
          (st.nodes.map fun n =>
            if n.id == srcId then { n with angleMode := some false } else n) ++ [N] ∧
        List.Forall₂ (fun m n => agreesExceptAngleMode m n ∧ (n.id ≠ srcId → m = n))
          ((handleChangeAngleGenerate newId srcId st).nodes.take st.nodes.length)
          st.nodes) := by
  refine ⟨⟨{ id := newId
             type := NodeType.IMAGE
             x := S.x + NODE_WIDTH + GAP
             y := S.y
             prompt := ""
             status := NodeStatus.IDLE
             model := "Banana Pro"
             imageModel := none
             aspectRatio := some ("Auto")
             resolution := some ("Auto")
             parentIds := [srcId]
             angleSettings := none
             angleMode := none }, by simp [handleImageToImage, hfind]⟩,
          ⟨{ id := newId
             type := NodeType.VIDEO
             x := S.x + NODE_WIDTH + GAP
             y := S.y
             prompt := ""
             status := NodeStatus.IDLE
             model := "Banana Pro"
             imageModel := none
             aspectRatio := some ("Auto")
             resolution := some ("Auto")
             parentIds := [srcId]
             angleSettings := none
             angleMode := none }, by simp [handleImageToVideo, hfind]⟩, ?_⟩
  intro settings hset
  have heq : (handleChangeAngleGenerate newId srcId st).nodes =
      (st.nodes.map fun n =>
        if n.id == srcId then { n with angleMode := some false } else n) ++
      [{ id := newId
         type := NodeType.IMAGE
         x := S.x + NODE_WIDTH + GAP
         y := S.y
         prompt := buildAnglePrompt settings
         status := NodeStatus.IDLE
         model := "Banana Pro"
         imageModel := some ("gemini-pro")
         aspectRatio := some (jsOrString S.aspectRatio ("Auto"))
         resolution := some (jsOrString S.resolution ("Auto"))
         parentIds := [srcId]
         angleSettings := none
         angleMode := none }] := by
    simp [handleChangeAngleGenerate, hfind, hset]
  refine ⟨_, heq, ?_⟩
  rw [heq, List.take_left' (by simp)]
  refine forall₂_map_self _ _ ?_
  intro n _
  by_cases hb : n.id = srcId
  · simp [hb, agreesExceptAngleMode]
  · simp [hb, agreesExceptAngleMode]

/-- Claim C9 witness at a concrete store. -/
theorem handlers_frame_effect_witness :
    (∃ N : NodeData,
      (handleImageToImage ("new-node") ("angle-node") sampleStore).nodes
        = sampleStore.nodes ++ [N]) ∧
    (∃ N : NodeData,
      (handleImageToVideo ("new-node") ("angle-node") sampleStore).nodes
        = sampleStore.nodes ++ [N]) ∧
    (∀ settings : AngleSettings, sampleAngleNode.angleSettings = some settings →
      ∃ N : NodeData,
        (handleChangeAngleGenerate ("new-node") ("angle-node") sampleStore).nodes =
          (sampleStore.nodes.map fun n =>
            if n.id == "angle-node" then { n with angleMode := some false } else n) ++ [N] ∧
        List.Forall₂
          (fun m n => agreesExceptAngleMode m n ∧ (n.id ≠ "angle-node" → m = n))
          ((handleChangeAngleGenerate ("new-node") ("angle-node") sampleStore).nodes.take
            sampleStore.nodes.length)
          sampleStore.nodes) :=
  handlers_frame_effect sampleStore ("new-node") ("angle-node") sampleAngleNode (by rfl)

/-- Claim C7: when a generation trigger callback is supplied, the angle
handler registers a single two-level deferred callback on the new node id;
after one full scheduler frame the trigger has not yet been invoked, after
two full frames it has been invoked exactly once on the new node id, and no
further frame invokes it again; the store update that added the node is
synchronous, so the new node id is present in the store from before the
first frame, hence at invocation time. When no trigger callback is
supplied, nothing is scheduled and node creation still succeeds. -/
theorem changeAngle_trigger_after_two_frames (st : Store) (newId srcId : String)
    (S : NodeData) (settings : AngleSettings)
    (hfind : st.nodes.find? (fun n => n.id == srcId) = some S)
    (hset : S.angleSettings = some settings) :
    (changeAngleScheduledThunks newId srcId true st = [RafThunk.outer newId] ∧
     runFrame { queue := changeAngleScheduledThunks newId srcId true st, triggered := [] }
       = { queue := [RafThunk.inner newId], triggered := [] } ∧
     runFrame (runFrame
         { queue := changeAngleScheduledThunks newId srcId true st, triggered := [] })
       = { queue := [], triggered := [newId] } ∧
     runFrame (runFrame (runFrame
         { queue := changeAngleScheduledThunks newId srcId true st, triggered := [] }))
       = { queue := [], triggered := [newId] } ∧
     newId ∈ (handleChangeAngleGenerate newId srcId st).nodes.map (fun n => n.id)) ∧
    (changeAngleScheduledThunks newId srcId false st = [] ∧
     (handleChangeAngleGenerate newId srcId st).nodes.length = st.nodes.length + 1) := by
  have hq : changeAngleScheduledThunks newId srcId true st = [RafThunk.outer newId] := by
    simp [changeAngleScheduledThunks, hfind, hset]
  refine ⟨⟨hq, ?_, ?_, ?_, ?_⟩, ?_, ?_⟩
  · rw [hq]
    rfl
  · rw [hq]
    rfl
  · rw [hq]
    rfl
  · simp [handleChangeAngleGenerate, hfind, hset]
  · simp [changeAngleScheduledThunks, hfind, hset]
  · simp [handleChangeAngleGenerate, hfind, hset]

/-- Claim C7 witness at a concrete store. -/
theorem changeAngle_trigger_after_two_frames_witness :
    (changeAngleScheduledThunks ("new-node") ("angle-node") true sampleStore
       = [RafThunk.outer ("new-node")] ∧
     runFrame { queue := changeAngleScheduledThunks ("new-node") ("angle-node") true sampleStore,
                triggered := [] }
       = { queue := [RafThunk.inner ("new-node")], triggered := [] } ∧
     runFrame (runFrame
         { queue := changeAngleScheduledThunks ("new-node") ("angle-node") true sampleStore,
           triggered := [] })
       = { queue := [], triggered := ["new-node"] } ∧
     runFrame (runFrame (runFrame
         { queue := changeAngleScheduledThunks ("new-node") ("angle-node") true sampleStore,
           triggered := [] }))
       = { queue := [], triggered := ["new-node"] } ∧
     "new-node" ∈ (handleChangeAngleGenerate ("new-node") ("angle-node") sampleStore).nodes.map
       (fun n => n.id)) ∧
    (changeAngleScheduledThunks ("new-node") ("angle-node") false sampleStore = [] ∧
     (handleChangeAngleGenerate ("new-node") ("angle-node") sampleStore).nodes.length
       = sampleStore.nodes.length + 1) :=
  changeAngle_trigger_after_two_frames sampleStore ("new-node") ("angle-node")
    sampleAngleNode sampleAngleSettings (by rfl) (by rfl)

/-- Claim C8: the context-menu controller keeps at most one menu open at
every reachable state (the state is a single shared slot, counted by
`openMenuCount`); every open call that fires yields an open state that is
independent of the previous state (last-write-wins); and opening a global
menu and then a node-options menu yields exactly the single open
node-options menu of the latest call. -/
theorem contextMenu_single_slot_last_write_wins :
    (∀ (s : ContextMenuState) (acts : List MenuAction),
      openMenuCount (acts.foldl menuStep s) ≤ 1) ∧
    (∀ (s s' : ContextMenuState) (a : MenuAction), opensMenu a = true →
      menuStep s a = menuStep s' a ∧ (menuStep s a).isOpen = true ∧
      openMenuCount (menuStep s a) = 1) ∧
    (∀ (s : ContextMenuState) (x1 y1 x2 y2 : Int) (nid : String),
      menuStep (menuStep s (MenuAction.globalContextMenu true x1 y1))
          (MenuAction.nodeOptions x2 y2 nid)
        = { isOpen := true
            x := x2
            y := y2
            type := MenuType.nodeOptions
            sourceNodeId := some nid
            connectorSide := none }) := by
  refine ⟨?_, ?_, ?_⟩
  · intro s acts
    unfold openMenuCount
    split <;> simp
  · intro s s' a ha
    cases a <;>
      simp_all [menuStep, opensMenu, openMenuCount, handleDoubleClick,
        handleGlobalContextMenu, handleToolbarAdd, openConnectorMenu,
        openNodeOptionsMenu, closeContextMenu]
  · intro s x1 y1 x2 y2 nid
    rfl

/-- Claim C8 witness: a toolbar open call fired on two unrelated states
gives the same single open menu. -/
theorem contextMenu_single_slot_last_write_wins_witness :
    menuStep initialContextMenu (MenuAction.toolbarAdd 30 40)
      = menuStep
          { isOpen := true
            x := 1
            y := 2
            type := MenuType.nodeConnector
            sourceNodeId := some ("n1")
            connectorSide := some ConnectorSide.left }
          (MenuAction.toolbarAdd 30 40) ∧
    (menuStep initialContextMenu (MenuAction.toolbarAdd 30 40)).isOpen = true ∧
    openMenuCount (menuStep initialContextMenu (MenuAction.toolbarAdd 30 40)) = 1 :=
  contextMenu_single_slot_last_write_wins.2.1 initialContextMenu
    { isOpen := true
      x := 1
      y := 2
      type := MenuType.nodeConnector
      sourceNodeId := some ("n1")
      connectorSide := some ConnectorSide.left }
    (MenuAction.toolbarAdd 30 40) rfl

/-- Claim C10: before any open call the controller state is closed — not
open, at the origin, of the global kind, with no source node and no
connector side — and closing only clears the open flag, leaving position,
kind, source node and connector side at their previous values. -/
theorem contextMenu_initial_closed_and_close_frame :
    initialContextMenu
      = { isOpen := false
          x := 0
          y := 0
          type := MenuType.global
          sourceNodeId := none
          connectorSide := none } ∧
    initialContextMenu.isOpen = false ∧
    (∀ s : ContextMenuState,
      closeContextMenu s
        = { isOpen := false
            x := s.x
            y := s.y
            type := s.type
            sourceNodeId := s.sourceNodeId
            connectorSide := s.connectorSide }) :=
  ⟨rfl, rfl, fun _ => rfl⟩

end TwitCanva
